import Mathlib

/-!
# Ban lifecycle core — verification

A shallow embedding of `src/backend/src/routes/bans.rs` (the ban lifecycle
engine of the legacy-waitlist backend) together with theorems checking the
specification's claims about it.

The database (tables `ban`, `character`, `admin`) is modelled as explicit
lists of rows; each route handler becomes a function from the database state
(plus the authenticated account and the current unix timestamp `now`) to an
`Except` value carrying either an error or the result and the new state.
Timestamps and ids are `Int`, matching the `i64` columns.

Types from `crate::util::types` and `crate::util::madness` are outside the
provided sources; their shapes are reconstructed from their uses in bans.rs.
Two callables are outside the sources as well and are modelled from the spec
where so marked: `AuthenticatedAccount.require_access` and
`BanService.all_bans`.
-/

namespace Bans

/-- The banned subject (util::types::Entity), shape taken from its uses in
bans.rs: numeric id, optional display name, category string. -/
structure Entity where
  id : Int
  name : Option String
  category : String
deriving DecidableEq

/-- A character identity (util::types::Character), as constructed on lines
61-65 of bans.rs. -/
structure Character where
  id : Int
  name : String
  corporation_id : Option Int
deriving DecidableEq

/-- The Ban payload type (util::types::Ban), used both as request body and as
response element; shape taken from its uses in bans.rs. -/
structure Ban where
  id : Option Int
  entity : Option Entity
  issued_at : Option Int
  issued_by : Option Character
  reason : String
  public_reason : Option String
  revoked_at : Option Int
  revoked_by : Option Int
deriving DecidableEq

/-- The error type (util::madness::Madness); the variants used by bans.rs plus
the ones its external calls surface (permission denial, database errors). -/
inductive Madness where
  | Unauthorized : Madness
  | BadRequest : String → Madness
  | Database : Madness
deriving DecidableEq

/-- A row of the `ban` table. Columns that bans.rs unconditionally `unwrap`s
(and that `create` always writes) are non-optional; `entity_name`,
`public_reason`, `revoked_at` and `revoked_by` are nullable. -/
structure BanRow where
  id : Int
  entity_type : String
  entity_id : Int
  entity_name : Option String
  issued_at : Int
  issued_by : Int
  reason : String
  public_reason : Option String
  revoked_at : Option Int
  revoked_by : Option Int
deriving DecidableEq

/-- A row of the `character` table (the columns bans.rs reads). -/
structure CharRow where
  id : Int
  name : String
deriving DecidableEq

/-- A row of the `admin` table (the columns bans.rs reads). -/
structure AdminRow where
  character_id : Int
  role : String
deriving DecidableEq

/-- The database state: the three tables touched by bans.rs, plus the
auto-increment counter the store uses to assign `ban.id` on insert. -/
structure Db where
  bans : List BanRow
  characters : List CharRow
  admins : List AdminRow
  next_id : Int
deriving DecidableEq

/-- The authenticated caller (core::auth::AuthenticatedAccount): its id and
the set of granted permission names. -/
structure Account where
  id : Int
  access : List String
deriving DecidableEq

/-- The payload deserialized from the entity resolver (bans.rs lines 14-17). -/
structure EsiResponse where
  name : String
deriving DecidableEq

/-- Modelled from the spec: `AuthenticatedAccount.require_access` is outside
the provided sources. Per §6/§7, it is a capability check invoked at the start
of every operation; denial surfaces as an Unauthorized error before any store
access occurs. -/
def require_access (account : Account) (permission : String) : Except Madness Unit :=
  if account.access.contains permission then .ok () else .error .Unauthorized

/-- The active-ban filter `revoked_at IS NULL OR revoked_at > $1` (bans.rs
line 45, and line 169 inside `update`), with SQL null semantics: a NULL
`revoked_at` passes only via the IS NULL disjunct. -/
def active_filter (revoked_at : Option Int) (t : Int) : Bool :=
  match revoked_at with
  | none => true
  | some r => decide (r > t)

/-- The §3 invariant written from the spec's words: a Ban is active at time T
iff `revoked_at` is absent OR `revoked_at > T`. Kept separate from
`active_filter` (which is translated from the SQL) so the two can be compared. -/
def spec_active (revoked_at : Option Int) (t : Int) : Prop :=
  revoked_at = none ∨ ∃ r, revoked_at = some r ∧ r > t

/-- `SELECT * FROM character WHERE id=$1` (first row); also the inner JOIN of
`list`, since `character.id` is the primary key. -/
def lookup_character (db : Db) (cid : Int) : Option CharRow :=
  db.characters.find? (fun c => c.id == cid)

/-- The row-to-response mapping of `list` (bans.rs lines 51-70). Note line 69:
the response's `revoked_by` is the literal `None`, not the stored column. -/
def render_ban (b : BanRow) (issuer : CharRow) : Ban :=
  { id := some b.id
    entity := some { id := b.entity_id, name := b.entity_name, category := b.entity_type }
    issued_at := some b.issued_at
    issued_by := some { id := issuer.id, name := issuer.name, corporation_id := none }
    reason := b.reason
    public_reason := b.public_reason
    revoked_at := b.revoked_at
    revoked_by := none }

/-- GET /api/v2/bans (bans.rs lines 19-74): after the permission check, select
the ban rows passing the active filter at `now`, inner-joined with their
issuing character, and render each. -/
def list (db : Db) (account : Account) (now : Int) : Except Madness (List Ban) :=
  match require_access account "bans-manage" with
  | .error e => .error e
  | .ok _ =>
    .ok (db.bans.filterMap (fun b =>
      if active_filter b.revoked_at now then
        (lookup_character db b.issued_by).map (render_ban b)
      else none))

/-- The path built for the entity resolver call (bans.rs lines 96-100). -/
def esi_path (category : String) (id : Int) : String :=
  "/latest/" ++ category.toLower ++ "s/" ++ toString id

/-- POST /api/v2/bans (bans.rs lines 76-140). `esi` stands for
`app.esi_client.get_unauthenticated`, the external entity resolver; its
failure propagates. Order as in the source: permission check, entity-presence
check, resolver call, admin-registry check, scheduled-end computation, insert.
The insert assigns the auto-increment id. -/
def create (db : Db) (esi : String → Except Madness EsiResponse) (account : Account)
    (req_body : Ban) (now : Int) : Except Madness (Db × String) :=
  match require_access account "bans-manage" with
  | .error e => .error e
  | .ok _ =>
    match req_body.entity with
    | none =>
      .error (.BadRequest "One or more body paramaters are missing: [\"id\", \"name\", \"kind\"]")
    | some e =>
      match esi (esi_path e.category e.id) with
      | .error err => .error err
      | .ok esi_res =>
        match db.admins.find? (fun a => a.character_id == e.id) with
        | some admin => .error (.BadRequest (admin.role ++ " accounts cannot be banned."))
        | none =>
          let expires_at := match req_body.revoked_at with
            | none => none
            | some day => some (day + 60 * 60 * 11)
          let row : BanRow :=
            { id := db.next_id
              entity_type := e.category
              entity_id := e.id
              entity_name := some esi_res.name
              issued_at := now
              issued_by := account.id
              reason := req_body.reason
              public_reason := req_body.public_reason
              revoked_at := expires_at
              revoked_by := none }
          .ok ({ db with bans := db.bans ++ [row], next_id := db.next_id + 1 }, "Ok")

/-- Modelled from the spec: `app.ban_service.all_bans` is outside the provided
sources (only its caller `character_history` is). Per §4.2, history returns
every Ban (active or not) ever recorded for that exact entity id and category;
the `Option` return mirrors the `if let Some(bans)` at the call site, with
`none` standing for an entity with no recorded history. -/
def all_bans (db : Db) (entity_id : Int) (category : String) : Option (List BanRow) :=
  let history := db.bans.filter (fun b => b.entity_id == entity_id && b.entity_type == category)
  if history.isEmpty then none else some history

/-- GET /api/v2/bans/character_id (bans.rs lines 142-155): full history for
the given character, empty list when the service reports none. -/
def character_history (db : Db) (account : Account) (character_id : Int) :
    Except Madness (List BanRow) :=
  match require_access account "bans-manage" with
  | .error e => .error e
  | .ok _ =>
    match all_bans db character_id "Character" with
    | some bans => .ok bans
    | none => .ok []

/-- PATCH /api/v2/bans/ban_id (bans.rs lines 157-211): the precondition query
`SELECT * FROM ban WHERE id=$1 AND (revoked_at IS NULL OR revoked_at > $2)`,
then the overwrite UPDATE whose WHERE clause is `id=$6` (it updates every row
with that id and leaves `revoked_by` untouched). -/
def update (db : Db) (account : Account) (ban_id : Int) (req_body : Ban) (now : Int) :
    Except Madness (Db × String) :=
  match require_access account "bans-manage" with
  | .error e => .error e
  | .ok _ =>
    match db.bans.find? (fun b => b.id == ban_id && active_filter b.revoked_at now) with
    | none =>
      .error (.BadRequest "Cannot revoke invalid ban. It is either invalid or doesn\x27t exist")
    | some _ =>
      let expires_at := match req_body.revoked_at with
        | none => none
        | some day => some (day + 60 * 60 * 11)
      .ok ({ db with bans := db.bans.map (fun b =>
          if b.id == ban_id then
            { b with
              reason := req_body.reason
              public_reason := req_body.public_reason
              revoked_at := expires_at
              issued_by := account.id
              issued_at := now }
          else b) }, "Ok")

/-- The first store round-trip of `revoke`: `select * from ban WHERE id=$1`
(bans.rs line 221). -/
def revoke_fetch (db : Db) (ban_id : Int) : Option BanRow :=
  db.bans.find? (fun b => b.id == ban_id)

/-- The remainder of `revoke` (bans.rs lines 224-259), acting on a previously
fetched row: the inactivity check `!revoked_at.is_none() && revoked_at < now`
(line 226, strict comparison), the two Conflict branches, and otherwise the
unconditional `UPDATE ban SET revoked_at=$1, revoked_by=$2 WHERE id=$3` (line
245) — the WHERE clause names only the id, so the write is not conditioned on
the row still being in the state that was read. Split from the fetch so that
interleavings of two concurrent revoke calls can be expressed. -/
def revoke_after_fetch (db : Db) (account : Account) (ban_id : Int) (now : Int)
    (fetched : Option BanRow) : Except Madness (Db × String) :=
  match fetched with
  | some ban =>
    if (match ban.revoked_at with
        | none => false
        | some r => decide (r < now)) then
      match ban.revoked_by with
      | none => .error (.BadRequest "Cannot revoke the ban as it has already expired")
      | some fc_id =>
        match lookup_character db fc_id with
        | none => .error .Database
        | some fc => .error (.BadRequest (fc.name ++ " has already revoked this ban"))
    else
      .ok ({ db with bans := db.bans.map (fun b =>
          if b.id == ban_id then
            { b with revoked_at := some now, revoked_by := some account.id }
          else b) }, "Ok")
  | none => .error (.BadRequest ("Could not find a ban with the ID of " ++ toString ban_id))

/-- DELETE /api/v2/bans/ban_id (bans.rs lines 213-260), run sequentially:
permission check, fetch, then check-and-write on the fetched row. -/
def revoke (db : Db) (account : Account) (ban_id : Int) (now : Int) :
    Except Madness (Db × String) :=
  match require_access account "bans-manage" with
  | .error e => .error e
  | .ok _ => revoke_after_fetch db account ban_id now (revoke_fetch db ban_id)

/-! ## Concrete fixtures used by witnesses and counterexamples -/

/-- A moderator account holding the `bans-manage` permission. -/
def wAcct : Account := { id := 10, access := ["bans-manage"] }

/-- A second moderator account, used where two distinct actors are needed. -/
def wAcctB : Account := { id := 11, access := ["bans-manage"] }

/-- The issuing character referenced by the fixture bans. -/
def wIssuer : CharRow := { id := 10, name := "Issuer Name" }

/-- A permanent (hence active) ban. -/
def wBanActive : BanRow :=
  { id := 1
    entity_type := "Character"
    entity_id := 500
    entity_name := some "Target One"
    issued_at := 0
    issued_by := 10
    reason := "cheating"
    public_reason := none
    revoked_at := none
    revoked_by := none }

/-- A ban expired well in the past (revoked_at = 5, revoked_by absent). -/
def wBanExpired : BanRow :=
  { id := 2
    entity_type := "Character"
    entity_id := 501
    entity_name := some "Target Two"
    issued_at := 0
    issued_by := 10
    reason := "smack talk"
    public_reason := some "conduct"
    revoked_at := some 5
    revoked_by := none }

/-- A store holding one active and one expired ban, and their issuer. -/
def wDb : Db :=
  { bans := [wBanActive, wBanExpired]
    characters := [wIssuer]
    admins := []
    next_id := 3 }

/-! ## C1 — list-active returns exactly the active bans -/

/-- C1: a Ban is active at time t iff `revoked_at` is absent or `revoked_at > t`
(the SQL filter used by the code agrees with the §3 invariant), and `list`
returns exactly the set of ban rows active as of the call's `now`, each joined
with the issuing account's identity. -/
theorem list_returns_exactly_active (db : Db) (account : Account) (now : Int)
    (hacc : require_access account "bans-manage" = .ok ()) :
    (∀ (r : Option Int) (t : Int), active_filter r t = true ↔ spec_active r t) ∧
    ∃ out, list db account now = .ok out ∧
      (∀ x, x ∈ out ↔ ∃ b, b ∈ db.bans ∧ active_filter b.revoked_at now = true ∧
        ∃ c, lookup_character db b.issued_by = some c ∧ x = render_ban b c) ∧
      (∀ b ∈ db.bans, active_filter b.revoked_at now = true →
        ∀ c, lookup_character db b.issued_by = some c → render_ban b c ∈ out) := by
  constructor
  · intro r t
    cases r with
    | none => simp [active_filter, spec_active]
    | some v => simp [active_filter, spec_active]
  · refine ⟨db.bans.filterMap (fun b =>
      if active_filter b.revoked_at now then
        (lookup_character db b.issued_by).map (render_ban b)
      else none), ?_, ?_, ?_⟩
    · unfold list
      rw [hacc]
    · intro x
      rw [List.mem_filterMap]
      constructor
      · rintro ⟨b, hb, hf⟩
        cases hact : active_filter b.revoked_at now with
        | false => rw [hact] at hf; simp at hf
        | true =>
          rw [hact] at hf
          simp only [if_true] at hf
          rcases Option.map_eq_some'.mp hf with ⟨c, hc, hxc⟩
          exact ⟨b, hb, hact, c, hc, hxc.symm⟩
      · rintro ⟨b, hb, hact, c, hc, rfl⟩
        exact ⟨b, hb, by simp [hact, hc]⟩
    · intro b hb hact c hc
      rw [List.mem_filterMap]
      exact ⟨b, hb, by simp [hact, hc]⟩

/-- Witness for C1 at a concrete store (one active, one expired ban) at now = 50. -/
theorem list_returns_exactly_active_witness :
    require_access wAcct "bans-manage" = .ok () ∧
    ((∀ (r : Option Int) (t : Int), active_filter r t = true ↔ spec_active r t) ∧
    ∃ out, list wDb wAcct 50 = .ok out ∧
      (∀ x, x ∈ out ↔ ∃ b, b ∈ wDb.bans ∧ active_filter b.revoked_at 50 = true ∧
        ∃ c, lookup_character wDb b.issued_by = some c ∧ x = render_ban b c) ∧
      (∀ b ∈ wDb.bans, active_filter b.revoked_at 50 = true →
        ∀ c, lookup_character wDb b.issued_by = some c → render_ban b c ∈ out)) :=
  ⟨rfl, list_returns_exactly_active wDb wAcct 50 rfl⟩

/-! ## C10 — list hardcodes revoked_by to absent -/

/-- C10: every Ban returned by `list` has `revoked_by` reported as absent,
regardless of the value of `revoked_by` stored for that row (line 69 of
bans.rs constructs the response with the literal `None`). -/
theorem list_revoked_by_always_none (db : Db) (account : Account) (now : Int)
    (out : List Ban) (h : list db account now = .ok out) :
    ∀ x ∈ out, x.revoked_by = none := by
  intro x hx
  unfold list at h
  cases hacc : require_access account "bans-manage" with
  | error e => rw [hacc] at h; cases h
  | ok u =>
    rw [hacc] at h
    have hout : db.bans.filterMap (fun b =>
        if active_filter b.revoked_at now then
          (lookup_character db b.issued_by).map (render_ban b)
        else none) = out := by
      exact Except.ok.inj h
    rw [← hout] at hx
    rcases List.mem_filterMap.mp hx with ⟨b, _, hf⟩
    cases hact : active_filter b.revoked_at now with
    | false => rw [hact] at hf; simp at hf
    | true =>
      rw [hact] at hf
      simp only [if_true] at hf
      rcases Option.map_eq_some'.mp hf with ⟨c, _, hxc⟩
      rw [← hxc]
      rfl

/-- A ban whose stored `revoked_by` is set while it is still active
(revoked_at far in the future), to exercise C10. -/
def w10Ban : BanRow :=
  { id := 4
    entity_type := "Character"
    entity_id := 504
    entity_name := some "Target Four"
    issued_at := 0
    issued_by := 10
    reason := "alt of banned"
    public_reason := none
    revoked_at := some 1000
    revoked_by := some 7 }

/-- Store for the C10 witness: the stored row has `revoked_by = some 7`. -/
def w10Db : Db :=
  { bans := [w10Ban]
    characters := [wIssuer]
    admins := []
    next_id := 5 }

/-- Witness for C10: the stored row carries `revoked_by = some 7`, yet the
listed response reports `revoked_by = none`. -/
theorem list_revoked_by_always_none_witness :
    w10Ban.revoked_by = some 7 ∧
    list w10Db wAcct 50 = .ok [render_ban w10Ban wIssuer] ∧
    ∀ x ∈ [render_ban w10Ban wIssuer], x.revoked_by = none :=
  ⟨rfl, rfl, list_revoked_by_always_none w10Db wAcct 50 [render_ban w10Ban wIssuer] rfl⟩

/-! ## C2 — revoking an expired ban (revoked_by absent) -/

/-- C2 counterexample: a ban with `revoked_at = some 100` (present and not in
the future at now = 100, so inactive per the §3 invariant) and `revoked_by`
absent. The claim says revoke must fail with Conflict and mutate nothing; the
code compares with strict `<` (line 226 of bans.rs), so at `revoked_at = now`
it instead succeeds and mutates the row. -/
def c2Ban : BanRow :=
  { id := 1
    entity_type := "Character"
    entity_id := 500
    entity_name := some "Target One"
    issued_at := 0
    issued_by := 10
    reason := "cheating"
    public_reason := none
    revoked_at := some 100
    revoked_by := none }

/-- Store for the C2 counterexample. -/
def c2Db : Db :=
  { bans := [c2Ban]
    characters := [wIssuer]
    admins := []
    next_id := 2 }

/-- The store after the boundary revoke: the row was overwritten. -/
def c2DbAfter : Db :=
  { c2Db with bans := [{ c2Ban with revoked_at := some 100, revoked_by := some 10 }] }

/-- C2 counterexample: at now = 100 the ban has `revoked_at = some 100 ≤ now`
and `revoked_by` absent, yet revoke returns success and mutates the record
(sets `revoked_by` to the caller), contradicting the claim as stated. -/
theorem revoke_at_boundary_mutates :
    c2Ban.revoked_at = some 100 ∧ (100 : Int) ≤ 100 ∧ c2Ban.revoked_by = none ∧
    revoke_fetch c2Db 1 = some c2Ban ∧
    revoke c2Db wAcct 1 100 = .ok (c2DbAfter, "Ok") ∧
    c2DbAfter.bans ≠ c2Db.bans :=
  ⟨rfl, le_refl _, rfl, rfl, rfl, by decide⟩

/-- C2 (amended): for every ban whose `revoked_at` is present and strictly in
the past (`revoked_at < now`) and whose `revoked_by` is absent, revoke fails
with the Conflict "Cannot revoke the ban as it has already expired" and, the
call returning an error before the UPDATE statement, performs no mutation. -/
theorem revoke_expired_conflict (db : Db) (account : Account) (ban_id now : Int)
    (ban : BanRow) (r : Int)
    (hacc : require_access account "bans-manage" = .ok ())
    (hfetch : revoke_fetch db ban_id = some ban)
    (hr : ban.revoked_at = some r) (hpast : r < now) (hby : ban.revoked_by = none) :
    revoke db account ban_id now =
      .error (.BadRequest "Cannot revoke the ban as it has already expired") := by
  simp only [revoke, hacc, hfetch, revoke_after_fetch, hr, hby]
  simp [hpast]

/-- Witness for C2 (amended) at now = 101, strictly past `revoked_at = 100`. -/
theorem revoke_expired_conflict_witness :
    require_access wAcct "bans-manage" = .ok () ∧
    revoke_fetch c2Db 1 = some c2Ban ∧
    c2Ban.revoked_at = some 100 ∧ (100 : Int) < 101 ∧ c2Ban.revoked_by = none ∧
    revoke c2Db wAcct 1 101 =
      .error (.BadRequest "Cannot revoke the ban as it has already expired") :=
  ⟨rfl, rfl, rfl, by decide, rfl,
    revoke_expired_conflict c2Db wAcct 1 101 c2Ban 100 rfl rfl rfl (by decide) rfl⟩

/-! ## C3 — revoking a ban already manually revoked -/

/-- A ban manually revoked by character 10 at time 100 (still `revoked_at =
now` at the counterexample's call time). -/
def c3Ban : BanRow :=
  { id := 1
    entity_type := "Character"
    entity_id := 500
    entity_name := some "Target One"
    issued_at := 0
    issued_by := 10
    reason := "cheating"
    public_reason := none
    revoked_at := some 100
    revoked_by := some 10 }

/-- Store for the C3 counterexample. -/
def c3Db : Db :=
  { bans := [c3Ban]
    characters := [wIssuer]
    admins := []
    next_id := 2 }

/-- The store after account B's boundary revoke: B overwrote A's revocation. -/
def c3DbAfter : Db :=
  { c3Db with bans := [{ c3Ban with revoked_at := some 100, revoked_by := some 11 }] }

/-- C3 counterexample: the ban is inactive at now = 100 (`revoked_at = some
100 ≤ now`) and was manually revoked by account 10, yet a revoke by account 11
succeeds and overwrites `revoked_by`, contradicting the claim as stated
(again the strict `<` of line 226). -/
theorem revoke_already_revoked_boundary_overwrites :
    c3Ban.revoked_at = some 100 ∧ (100 : Int) ≤ 100 ∧ c3Ban.revoked_by = some 10 ∧
    revoke c3Db wAcctB 1 100 = .ok (c3DbAfter, "Ok") ∧
    c3DbAfter.bans.map BanRow.revoked_by = [some 11] :=
  ⟨rfl, le_refl _, rfl, rfl, rfl⟩

/-- C3 (amended): for every ban whose `revoked_at` is present and strictly in
the past and whose `revoked_by` names account A (present in the character
table), a revoke attempt by any account fails with a Conflict naming A and,
the call returning an error before the UPDATE statement, performs no
mutation. -/
theorem revoke_already_revoked_conflict (db : Db) (account : Account)
    (ban_id now : Int) (ban : BanRow) (r fc_id : Int) (fc : CharRow)
    (hacc : require_access account "bans-manage" = .ok ())
    (hfetch : revoke_fetch db ban_id = some ban)
    (hr : ban.revoked_at = some r) (hpast : r < now)
    (hby : ban.revoked_by = some fc_id)
    (hfc : lookup_character db fc_id = some fc) :
    revoke db account ban_id now =
      .error (.BadRequest (fc.name ++ " has already revoked this ban")) := by
  simp only [revoke, hacc, hfetch, revoke_after_fetch, hr, hby]
  simp [hpast, hfc]

/-- Witness for C3 (amended) at now = 101: account 11 attempts to revoke a ban
already revoked by character 10 ("Issuer Name"); the Conflict names them. -/
theorem revoke_already_revoked_conflict_witness :
    require_access wAcctB "bans-manage" = .ok () ∧
    revoke_fetch c3Db 1 = some c3Ban ∧
    c3Ban.revoked_at = some 100 ∧ (100 : Int) < 101 ∧ c3Ban.revoked_by = some 10 ∧
    lookup_character c3Db 10 = some wIssuer ∧
    revoke c3Db wAcctB 1 101 =
      .error (.BadRequest (wIssuer.name ++ " has already revoked this ban")) :=
  ⟨rfl, rfl, rfl, by decide, rfl, rfl,
    revoke_already_revoked_conflict c3Db wAcctB 1 101 c3Ban 100 10 wIssuer
      rfl rfl rfl (by decide) rfl rfl⟩

/-! ## C4 — scheduled-end computation on create -/

/-- C4: every successful create stores a ban with `revoked_by` absent whose
`revoked_at` is the supplied scheduled end plus 39600 seconds (11 hours) when
one is supplied, and absent (permanent) otherwise. -/
theorem create_scheduled_end_offset (db : Db) (esi : String → Except Madness EsiResponse)
    (account : Account) (req_body : Ban) (now : Int) (e : Entity) (res : EsiResponse)
    (hacc : require_access account "bans-manage" = .ok ())
    (hent : req_body.entity = some e)
    (hesi : esi (esi_path e.category e.id) = .ok res)
    (hadmin : db.admins.find? (fun a => a.character_id == e.id) = none) :
    ∃ row : BanRow,
      create db esi account req_body now =
        .ok ({ db with bans := db.bans ++ [row], next_id := db.next_id + 1 }, "Ok") ∧
      row.revoked_by = none ∧
      (∀ d, req_body.revoked_at = some d → row.revoked_at = some (d + 39600)) ∧
      (req_body.revoked_at = none → row.revoked_at = none) := by
  refine ⟨{ id := db.next_id
            entity_type := e.category
            entity_id := e.id
            entity_name := some res.name
            issued_at := now
            issued_by := account.id
            reason := req_body.reason
            public_reason := req_body.public_reason
            revoked_at := (match req_body.revoked_at with
              | none => none
              | some day => some (day + 60 * 60 * 11))
            revoked_by := none }, ?_, rfl, ?_, ?_⟩
  · simp only [create, hacc, hent, hesi, hadmin]
  · intro d hd
    simp only [hd]
    norm_num
  · intro hd
    simp only [hd]

/-- The entity targeted by the fixture create requests. -/
def wEntity : Entity := { id := 500, name := none, category := "Character" }

/-- A create request body carrying a scheduled end of 1000. -/
def wReq : Ban :=
  { id := none
    entity := some wEntity
    issued_at := none
    issued_by := none
    reason := "cheating"
    public_reason := none
    revoked_at := some 1000
    revoked_by := none }

/-- A resolver stub that always resolves to the same display name. -/
def wEsi : String → Except Madness EsiResponse := fun _ => .ok { name := "Resolved Name" }

/-- Witness for C4 at a concrete store without admins, scheduled end 1000. -/
theorem create_scheduled_end_offset_witness :
    require_access wAcct "bans-manage" = .ok () ∧
    wReq.entity = some wEntity ∧
    wEsi (esi_path wEntity.category wEntity.id) = .ok { name := "Resolved Name" } ∧
    wDb.admins.find? (fun a => a.character_id == wEntity.id) = none ∧
    (∃ row : BanRow,
      create wDb wEsi wAcct wReq 42 =
        .ok ({ wDb with bans := wDb.bans ++ [row], next_id := wDb.next_id + 1 }, "Ok") ∧
      row.revoked_by = none ∧
      (∀ d, wReq.revoked_at = some d → row.revoked_at = some (d + 39600)) ∧
      (wReq.revoked_at = none → row.revoked_at = none)) :=
  ⟨rfl, rfl, rfl, rfl,
    create_scheduled_end_offset wDb wEsi wAcct wReq 42 wEntity { name := "Resolved Name" }
      rfl rfl rfl rfl⟩

/-! ## C5 — admin registry exemption on create -/

/-- C5: when the targeted entity is present in the admin registry, create
fails with an error naming the privileged role and, the call returning before
the INSERT statement, performs no store write — for every request body
(reason, public reason, scheduled end unconstrained). -/
theorem create_admin_policy_violation (db : Db) (esi : String → Except Madness EsiResponse)
    (account : Account) (req_body : Ban) (now : Int) (e : Entity) (res : EsiResponse)
    (admin : AdminRow)
    (hacc : require_access account "bans-manage" = .ok ())
    (hent : req_body.entity = some e)
    (hesi : esi (esi_path e.category e.id) = .ok res)
    (hadmin : db.admins.find? (fun a => a.character_id == e.id) = some admin) :
    create db esi account req_body now =
      .error (.BadRequest (admin.role ++ " accounts cannot be banned.")) := by
  simp only [create, hacc, hent, hesi, hadmin]

/-- The admin-registry row protecting entity 500. -/
def wAdmin : AdminRow := { character_id := 500, role := "Admin" }

/-- A store whose admin registry contains the targeted entity. -/
def wAdminDb : Db :=
  { bans := []
    characters := [wIssuer]
    admins := [wAdmin]
    next_id := 1 }

/-- Witness for C5: banning entity 500, registered as role "Admin", fails
naming the role. -/
theorem create_admin_policy_violation_witness :
    require_access wAcct "bans-manage" = .ok () ∧
    wReq.entity = some wEntity ∧
    wEsi (esi_path wEntity.category wEntity.id) = .ok { name := "Resolved Name" } ∧
    wAdminDb.admins.find? (fun a => a.character_id == wEntity.id) = some wAdmin ∧
    create wAdminDb wEsi wAcct wReq 42 =
      .error (.BadRequest (wAdmin.role ++ " accounts cannot be banned.")) :=
  ⟨rfl, rfl, rfl, rfl,
    create_admin_policy_violation wAdminDb wEsi wAcct wReq 42 wEntity
      { name := "Resolved Name" } wAdmin rfl rfl rfl rfl⟩

/-! ## C6 — amend requires an existing, currently active ban -/

/-- C6: when no ban with the given id exists that is active at call time,
amend fails with the Invalid error and, the call returning an error before the
UPDATE statement, mutates nothing; and conversely a successful amend implies a
ban with that id existed and was active at call time. -/
theorem update_requires_active_ban (db : Db) (account : Account) (ban_id : Int)
    (req_body : Ban) (now : Int)
    (hacc : require_access account "bans-manage" = .ok ()) :
    ((¬ ∃ b, b ∈ db.bans ∧ b.id = ban_id ∧ active_filter b.revoked_at now = true) →
      update db account ban_id req_body now =
        .error (.BadRequest "Cannot revoke invalid ban. It is either invalid or doesn\x27t exist")) ∧
    (∀ db2 s, update db account ban_id req_body now = .ok (db2, s) →
      ∃ b, b ∈ db.bans ∧ b.id = ban_id ∧ active_filter b.revoked_at now = true) := by
  cases hfind : db.bans.find? (fun b => b.id == ban_id && active_filter b.revoked_at now) with
  | none =>
    constructor
    · intro _
      simp only [update, hacc, hfind]
    · intro db2 s h
      simp only [update, hacc, hfind] at h
      exact Except.noConfusion h
  | some b =>
    have hmem := List.mem_of_find?_eq_some hfind
    have hp := List.find?_some hfind
    rw [Bool.and_eq_true] at hp
    obtain ⟨hid, hact⟩ := hp
    have hid2 : b.id = ban_id := by simpa using hid
    constructor
    · intro hne
      exact absurd ⟨b, hmem, hid2, hact⟩ hne
    · intro db2 s _
      exact ⟨b, hmem, hid2, hact⟩

/-- Witness for C6 at a concrete store (expired ban, id 1) at now = 150. -/
theorem update_requires_active_ban_witness :
    require_access wAcct "bans-manage" = .ok () ∧
    (((¬ ∃ b, b ∈ c2Db.bans ∧ b.id = 1 ∧ active_filter b.revoked_at 150 = true) →
      update c2Db wAcct 1 wReq 150 =
        .error (.BadRequest "Cannot revoke invalid ban. It is either invalid or doesn\x27t exist")) ∧
    (∀ db2 s, update c2Db wAcct 1 wReq 150 = .ok (db2, s) →
      ∃ b, b ∈ c2Db.bans ∧ b.id = 1 ∧ active_filter b.revoked_at 150 = true)) :=
  ⟨rfl, update_requires_active_ban c2Db wAcct 1 wReq 150 rfl⟩

/-! ## C7 — amend is a re-issuance -/

/-- C7: a successful amend overwrites the ban's reason, public_reason and
revoked_at (the latter recomputed with the 11-hour offset, 39600 seconds) and
re-stamps issued_at/issued_by to the amending call's time and account, for
every request body — including one whose reason text equals the stored one. -/
theorem update_restamps_issuance (db : Db) (account : Account) (ban_id : Int)
    (req_body : Ban) (now : Int) (b0 : BanRow)
    (hacc : require_access account "bans-manage" = .ok ())
    (hfind : db.bans.find? (fun b => b.id == ban_id && active_filter b.revoked_at now)
      = some b0) :
    ∃ db2, update db account ban_id req_body now = .ok (db2, "Ok") ∧
      ∀ x ∈ db2.bans, x.id = ban_id →
        x.reason = req_body.reason ∧
        x.public_reason = req_body.public_reason ∧
        x.revoked_at = (match req_body.revoked_at with
          | none => none
          | some day => some (day + 39600)) ∧
        x.issued_at = now ∧ x.issued_by = account.id := by
  refine ⟨{ db with bans := db.bans.map (fun b =>
      if b.id == ban_id then
        { b with
          reason := req_body.reason
          public_reason := req_body.public_reason
          revoked_at := (match req_body.revoked_at with
            | none => none
            | some day => some (day + 60 * 60 * 11))
          issued_by := account.id
          issued_at := now }
      else b) }, ?_, ?_⟩
  · simp only [update, hacc, hfind]
  · intro x hx hxid
    rcases List.mem_map.mp hx with ⟨y, hy, hxy⟩
    cases hc : y.id == ban_id with
    | false =>
      rw [hc] at hxy
      simp only [Bool.false_eq_true, if_false] at hxy
      rw [← hxy] at hxid
      exact absurd hxid (by simpa using hc)
    | true =>
      rw [hc] at hxy
      simp only [if_true] at hxy
      rw [← hxy]
      refine ⟨rfl, rfl, ?_, rfl, rfl⟩
      cases req_body.revoked_at with
      | none => rfl
      | some d => norm_num

/-- Witness for C7 at a concrete store: the active permanent ban (id 1) is
amended at now = 50 with a request whose reason equals the stored reason. -/
theorem update_restamps_issuance_witness :
    require_access wAcct "bans-manage" = .ok () ∧
    wDb.bans.find? (fun b => b.id == 1 && active_filter b.revoked_at 50)
      = some wBanActive ∧
    wReq.reason = wBanActive.reason ∧
    (∃ db2, update wDb wAcct 1 wReq 50 = .ok (db2, "Ok") ∧
      ∀ x ∈ db2.bans, x.id = 1 →
        x.reason = wReq.reason ∧
        x.public_reason = wReq.public_reason ∧
        x.revoked_at = (match wReq.revoked_at with
          | none => none
          | some day => some (day + 39600)) ∧
        x.issued_at = 50 ∧ x.issued_by = wAcct.id) :=
  ⟨rfl, rfl, rfl, update_restamps_issuance wDb wAcct 1 wReq 50 wBanActive rfl rfl⟩

/-! ## C8 — the revoke check-then-act race -/

/-- A store holding the single active (permanent) ban targeted by the race. -/
def raceDb : Db :=
  { bans := [wBanActive]
    characters := [wIssuer]
    admins := []
    next_id := 2 }

/-- The store after the first concurrent revoke (by account 10) commits. -/
def raceDb1 : Db :=
  { raceDb with bans := [{ wBanActive with revoked_at := some 50, revoked_by := some 10 }] }

/-- The store after the second concurrent revoke (by account 11) commits over
it: account 11's blind write replaces account 10's revocation. -/
def raceDb2 : Db :=
  { raceDb with bans := [{ wBanActive with revoked_at := some 50, revoked_by := some 11 }] }

/-- C8 refuted on the code: the sequential `revoke` is literally a fetch
followed by a check-and-blind-write (`UPDATE ... WHERE id=$3`, bans.rs line
245, with no state condition). In the interleaving where both concurrent
calls fetch the still-active row before either writes, BOTH succeed: neither
observes a Conflict, and the later write silently overwrites the winner's
`revoked_by`. -/
theorem revoke_race_both_succeed :
    revoke raceDb wAcct 1 50 =
      revoke_after_fetch raceDb wAcct 1 50 (revoke_fetch raceDb 1) ∧
    revoke_after_fetch raceDb wAcct 1 50 (revoke_fetch raceDb 1) = .ok (raceDb1, "Ok") ∧
    revoke_after_fetch raceDb1 wAcctB 1 50 (revoke_fetch raceDb 1) = .ok (raceDb2, "Ok") ∧
    raceDb2.bans.map BanRow.revoked_by = [some 11] :=
  ⟨rfl, rfl, rfl, rfl⟩

/-! ## C9 — history returns everything, empty when nothing -/

/-- C9: for every entity id and category the history source returns exactly
the bans recorded for that exact entity (active or not), and the
character-history operation returns them — an empty collection, not an error,
when the entity has no recorded bans. -/
theorem character_history_returns_all (db : Db) (account : Account) (character_id : Int)
    (hacc : require_access account "bans-manage" = .ok ()) :
    (∀ category, (match all_bans db character_id category with
        | some l => l
        | none => ([] : List BanRow)) =
      db.bans.filter (fun b => b.entity_id == character_id && b.entity_type == category)) ∧
    character_history db account character_id =
      .ok (db.bans.filter (fun b => b.entity_id == character_id && b.entity_type == "Character")) := by
  have key : ∀ category, (match all_bans db character_id category with
      | some l => l
      | none => ([] : List BanRow)) =
      db.bans.filter (fun b => b.entity_id == character_id && b.entity_type == category) := by
    intro category
    unfold all_bans
    cases hemp : (db.bans.filter
        (fun b => b.entity_id == character_id && b.entity_type == category)).isEmpty with
    | true =>
      simp only [hemp, if_true]
      exact (List.isEmpty_iff.mp hemp).symm
    | false =>
      simp only [hemp, Bool.false_eq_true, if_false]
  refine ⟨key, ?_⟩
  unfold character_history
  rw [hacc]
  cases hab : all_bans db character_id "Character" with
  | some l =>
    have := key "Character"
    rw [hab] at this
    exact congrArg Except.ok this
  | none =>
    have := key "Character"
    rw [hab] at this
    exact congrArg Except.ok this

/-- Witness for C9 at a concrete store, querying character 999 which has no
recorded bans: the result is `.ok []`, not an error. -/
theorem character_history_returns_all_witness :
    require_access wAcct "bans-manage" = .ok () ∧
    ((∀ category, (match all_bans wDb 999 category with
        | some l => l
        | none => ([] : List BanRow)) =
      wDb.bans.filter (fun b => b.entity_id == 999 && b.entity_type == category)) ∧
    character_history wDb wAcct 999 =
      .ok (wDb.bans.filter (fun b => b.entity_id == 999 && b.entity_type == "Character"))) :=
  ⟨rfl, character_history_returns_all wDb wAcct 999 rfl⟩

end Bans
